import Mathlib

/-!
Verification of the presentation-store and generation-worker core of the
ai-transformation-presentation-api repository.

The development shallowly embeds the repository's persistence layer
(src/libs/presentationRepo.ts) and the SQS generation worker
(src/handlers/sqs/generatePresentation.ts) in Lean:

* The DynamoDB table is modelled as an association list from composite
  (partition key, sort key) string pairs to stored items.
* Each repository method becomes a pure function on that table model;
  `Date.now()` is passed in explicitly as a natural-number timestamp.
* The batch-write service is modelled by an oracle mapping each issued
  batch to the list of write requests the service left unprocessed;
  issued commands are recorded in an explicit action trace.
* JavaScript truthiness tests in the source (`existing?.createdAt || now`,
  `if (errorMessage)`) are modelled exactly: `0` and the empty string are
  falsy.

Slide documents are opaque to the storage layer (the repository only ever
reads the numeric `slideIndex` attribute it stored alongside them, and the
spec directs that slides be treated as open structured documents), so the
slide payload is modelled as an opaque wrapper.
-/

namespace PresentationApi

/-- A slide document. The repository stores and returns slide payloads
verbatim and never inspects their fields, so the payload is abstracted. -/
structure Slide where
  payload : String
deriving DecidableEq, Repr

/-- LogoType from src/types: "qodea" | "custom" | "text" | "image". -/
inductive LogoType
  | qodea | custom | text | image
deriving DecidableEq, Repr

/-- ColorTheme from src/types: "qodea" | "custom". -/
inductive ColorTheme
  | qodea | custom
deriving DecidableEq, Repr

/-- PresentationTheme from src/types/presentation. -/
structure PresentationTheme where
  logo : LogoType
  logoText : Option String
  logoImage : Option String
  colors : ColorTheme
  videoBackground : Option String
deriving DecidableEq, Repr

/-- PresentationStatus from src/types: "processing" | "completed" | "failed". -/
inductive PresentationStatus
  | processing | completed | failed
deriving DecidableEq, Repr

/-- PresentationMetadata from src/types/presentation (the DynamoDB
metadata entity). Optional TS fields become `Option`. -/
structure PresentationMetadata where
  id : String
  title : String
  description : Option String
  userId : String
  status : PresentationStatus
  createdAt : Nat
  updatedAt : Nat
  theme : PresentationTheme
  errorMessage : Option String
deriving DecidableEq, Repr

/-- SlideItem from src/types/presentation (the DynamoDB slide entity). -/
structure SlideItem where
  slideIndex : Nat
  slide : Slide
  updatedAt : Nat
deriving DecidableEq, Repr

/-- Presentation from src/types/presentation (as assembled by
getPresentation: metadata fields plus the ordered slide list). -/
structure Presentation where
  id : String
  title : String
  description : Option String
  theme : PresentationTheme
  slides : List Slide
deriving DecidableEq, Repr

/-! ### Decimal rendering and String.padStart

Models the JavaScript expression `String(slideIndex).padStart(3, "0")`
from createSK. -/

/-- The character for a single decimal digit d (0 ≤ d ≤ 9). -/
def digitChar (d : Nat) : Char :=
  Char.ofNat (48 + d)

/-- Decimal digits of n, most significant first — the characters of the
JavaScript string `String(n)` for a non-negative integer n. -/
def natDecimal (n : Nat) : List Char :=
  if h : n < 10 then [digitChar n]
  else natDecimal (n / 10) ++ [digitChar (n % 10)]
decreasing_by exact Nat.div_lt_self (by omega) (by omega)

/-- JavaScript `String(n)` for a non-negative integer n. -/
def jsStringOfNat (n : Nat) : String :=
  ⟨natDecimal n⟩

/-- JavaScript `s.padStart(targetLength, pad)` for a single-character pad
string: prepend copies of the pad character until the target length is
reached (no-op when s is already long enough). -/
def padStart (s : String) (targetLength : Nat) (pad : Char) : String :=
  ⟨List.replicate (targetLength - s.length) pad ++ s.data⟩

/-! ### Key construction (presentationRepo.ts, lines 52–70) -/

/-- createPK from presentationRepo.ts. -/
def createPK (presentationId : String) : String :=
  "PRESENTATION#" ++ presentationId

/-- createSK from presentationRepo.ts: the slide branch is taken exactly
when the type argument is "SLIDE" and a slideIndex argument is present. -/
def createSK (skType : String) (slideIndex : Option Nat) : String :=
  match skType, slideIndex with
  | "SLIDE", some i => "SLIDE#" ++ padStart (jsStringOfNat i) 3 '0'
  | _, _ => "METADATA"

/-- createGSI1PK from presentationRepo.ts. -/
def createGSI1PK (userId : String) : String :=
  "USER#" ++ userId

/-- createGSI1SK from presentationRepo.ts. -/
def createGSI1SK (presentationId : String) : String :=
  "PRESENTATION#" ++ presentationId

/-- The slide sort key as the spec words it: "SLIDE#" followed by the
index rendered in decimal and left-padded with zeros to 3 digits. -/
def specSlideSortKey (i : Nat) : String :=
  "SLIDE#" ++ ⟨List.replicate (3 - (natDecimal i).length) '0' ++ natDecimal i⟩

theorem natDecimal_of_lt (n : Nat) (h : n < 10) : natDecimal n = [digitChar n] := by
  rw [natDecimal]
  simp [h]

theorem natDecimal_of_ge (n : Nat) (h : ¬ n < 10) :
    natDecimal n = natDecimal (n / 10) ++ [digitChar (n % 10)] := by
  rw [natDecimal]
  simp [h]

/-- n < 10 ^ k (k ≥ 1) renders in at most k decimal digits. -/
theorem natDecimal_length_le (k : Nat) (hk : 0 < k) :
    ∀ n, n < 10 ^ k → (natDecimal n).length ≤ k := by
  induction k with
  | zero => omega
  | succ k ih =>
    intro n hn
    by_cases h : n < 10
    · rw [natDecimal_of_lt n h]
      simp
    · rw [natDecimal_of_ge n h]
      have hk0 : 0 < k := by
        by_contra hc
        have : k = 0 := by omega
        subst this
        simp at hn
        omega
      have hdiv : n / 10 < 10 ^ k := by
        have : n < 10 ^ k * 10 := by
          rw [← pow_succ]
          exact hn
        exact Nat.div_lt_of_lt_mul (by omega)
      have := ih hk0 (n / 10) hdiv
      simp only [List.length_append, List.length_cons, List.length_nil]
      omega

/-! ### The DynamoDB table model

A single table maps composite (pk, sk) keys to items. Items stored by
this repository are either the metadata entity (together with its two
GSI1 attributes) or a slide entity; `pk`/`sk` live in the key and are not
duplicated inside the value. -/

/-- A stored metadata item: `{gsi1pk, gsi1sk, ...PresentationMetadata}`
as written by savePresentationMetadata. -/
structure MetaItem where
  gsi1pk : String
  gsi1sk : String
  meta : PresentationMetadata
deriving DecidableEq, Repr

/-- A stored item value. -/
inductive ItemVal
  | metaVal (m : MetaItem)
  | slideVal (s : SlideItem)
deriving DecidableEq, Repr

/-- A composite primary key: (partition key, sort key). -/
abbrev TableKey := String × String

/-- The table: an association list keyed by composite key. putItem keeps
keys unique, so list order only records insertion order (DynamoDB scan
order is never relied on by the code — it re-sorts query results). -/
abbrev Table := List (TableKey × ItemVal)

/-- GetCommand: the item stored under an exact composite key, if any. -/
def getItem (t : Table) (k : TableKey) : Option ItemVal :=
  (t.find? (fun e => e.1 = k)).map (·.2)

/-- PutCommand: unconditional upsert of a full item at its key —
replace the binding when the key is present, append it otherwise. -/
def putItem : Table → TableKey → ItemVal → Table
  | [], k, v => [(k, v)]
  | e :: t, k, v => if e.1 = k then (k, v) :: t else e :: putItem t k v

/-- The metadata key of a presentation, as built at every call site:
`{pk: createPK(id), sk: createSK("METADATA")}`. -/
def metadataKey (presentationId : String) : TableKey :=
  (createPK presentationId, createSK "METADATA" none)

/-! ### Repository read operations -/

/-- getPresentationMetadata (presentationRepo.ts lines 131–166): fetch
the single metadata record by exact key; absent → null. The TS cast of
the raw item to PresentationMetadata corresponds to the metaVal match. -/
def getPresentationMetadata (t : Table) (presentationId : String) :
    Option PresentationMetadata :=
  match getItem t (metadataKey presentationId) with
  | some (ItemVal.metaVal mi) => some mi.meta
  | _ => none

/-- The DynamoDB begins_with condition on sort keys, on the character
list of the strings. -/
def beginsWith (s pre : String) : Bool :=
  pre.data.isPrefixOf s.data

/-- The QueryCommand of getPresentation: all items whose partition key
equals createPK(id) and whose sort key begins with "SLIDE#", in table
order (the code re-sorts, so storage order is irrelevant). -/
def querySlides (t : Table) (presentationId : String) : List SlideItem :=
  t.filterMap (fun e =>
    if e.1.1 = createPK presentationId ∧ beginsWith e.1.2 "SLIDE#" = true then
      match e.2 with
      | ItemVal.slideVal s => some s
      | _ => none
    else none)

/-- The sort comparator of getPresentation, line 111:
`(a, b) => a.slideIndex - b.slideIndex`, i.e. ascending numeric
slideIndex. JavaScript sort is stable, as is insertion sort. -/
def sortBySlideIndex (items : List SlideItem) : List SlideItem :=
  List.insertionSort (fun a b => a.slideIndex ≤ b.slideIndex) items

/-- getPresentation (presentationRepo.ts lines 76–126): metadata by exact
key (absent → null), then all SLIDE#-prefixed items of the partition,
sorted ascending by numeric slideIndex, projected to their payloads. -/
def getPresentation (t : Table) (presentationId : String) :
    Option Presentation :=
  match getItem t (metadataKey presentationId) with
  | some (ItemVal.metaVal mi) =>
    some
      { id := mi.meta.id
        title := mi.meta.title
        description := mi.meta.description
        theme := mi.meta.theme
        slides := (sortBySlideIndex (querySlides t presentationId)).map (·.slide) }
  | _ => none

/-! ### savePresentationMetadata -/

/-- The argument of savePresentationMetadata:
`Omit<PresentationMetadata, "createdAt" | "updatedAt">`. -/
structure MetadataInput where
  id : String
  title : String
  description : Option String
  userId : String
  status : PresentationStatus
  theme : PresentationTheme
  errorMessage : Option String
deriving DecidableEq, Repr

/-- savePresentationMetadata (presentationRepo.ts lines 171–202):
read the existing record, build the item with
`createdAt: existing?.createdAt || now` (JavaScript ||: 0 is falsy) and
`updatedAt: now`, and put it together with the two GSI1 attributes. -/
def savePresentationMetadata (t : Table) (md : MetadataInput) (now : Nat) :
    Table :=
  let existing := getPresentationMetadata t md.id
  let createdAt :=
    match existing with
    | some e => if e.createdAt = 0 then now else e.createdAt
    | none => now
  let item : PresentationMetadata :=
    { id := md.id
      title := md.title
      description := md.description
      userId := md.userId
      status := md.status
      createdAt := createdAt
      updatedAt := now
      theme := md.theme
      errorMessage := md.errorMessage }
  putItem t (metadataKey md.id)
    (ItemVal.metaVal
      { gsi1pk := createGSI1PK md.userId
        gsi1sk := createGSI1SK md.id
        meta := item })

/-! ### saveSlides: batch writes with an unprocessed-items retry

The BatchWriteCommand service call is modelled by an oracle mapping each
issued batch to the sub-list of requests the service reports as
unprocessed; requests not reported unprocessed take effect as puts. The
commands issued and the sleep are recorded in an action trace. -/

/-- One PutRequest of the saveSlides batch: the item
`{pk, sk, slideIndex, slide, updatedAt}` built on lines 238–248. -/
structure WriteReq where
  pk : String
  sk : String
  slideIndex : Nat
  slide : Slide
  updatedAt : Nat
deriving DecidableEq, Repr

/-- An observable action of saveSlides: a BatchWriteCommand with a given
request list, or the fixed setTimeout delay (milliseconds). -/
inductive BatchAction
  | batchWrite (reqs : List WriteReq)
  | sleep (ms : Nat)
deriving DecidableEq, Repr

/-- Apply one PutRequest to the table. -/
def applyWriteReq (t : Table) (r : WriteReq) : Table :=
  putItem t (r.pk, r.sk)
    (ItemVal.slideVal { slideIndex := r.slideIndex, slide := r.slide, updatedAt := r.updatedAt })

/-- Apply the PutRequests of a batch that the service processed. -/
def applyWrites (t : Table) (reqs : List WriteReq) : Table :=
  reqs.foldl applyWriteReq t

/-- The write requests built on lines 238–248: one per array position,
with sk = createSK("SLIDE", index) and slideIndex = index. -/
def mkWriteRequests (presentationId : String) (slides : List Slide) (now : Nat) :
    List WriteReq :=
  slides.enum.map (fun p =>
    { pk := createPK presentationId
      sk := createSK "SLIDE" (some p.1)
      slideIndex := p.1
      slide := p.2
      updatedAt := now })

/-- The chunking loop of lines 251–271 (`for i = 0; i < len; i += 25`):
for each consecutive slice of at most 25 requests, send it; if the
service reports unprocessed items, sleep 1000 ms and re-send exactly the
unprocessed list once, ignoring the result of that second send. -/
def saveSlidesLoop (oracle : List WriteReq → List WriteReq) (t : Table)
    (reqs : List WriteReq) : Table × List BatchAction :=
  if h : reqs = [] then (t, [])
  else
    let batch := reqs.take 25
    let unproc := oracle batch
    if unproc = [] then
      let t1 := applyWrites t batch
      let r := saveSlidesLoop oracle t1 (reqs.drop 25)
      (r.1, BatchAction.batchWrite batch :: r.2)
    else
      let t1 := applyWrites t (batch.filter (fun x => decide (x ∉ unproc)))
      let retryUnproc := oracle unproc
      let t2 := applyWrites t1 (unproc.filter (fun x => decide (x ∉ retryUnproc)))
      let r := saveSlidesLoop oracle t2 (reqs.drop 25)
      (r.1, BatchAction.batchWrite batch :: BatchAction.sleep 1000 ::
        BatchAction.batchWrite unproc :: r.2)
termination_by reqs.length
decreasing_by
  all_goals
    simp only [List.length_drop]
    have : reqs.length ≠ 0 := fun hc => h (List.eq_nil_of_length_eq_zero hc)
    omega

/-- saveSlides (presentationRepo.ts lines 235–276): build one write
request per array position and run the chunked batch-write loop.
Unprocessed items remaining after the single retry are not surfaced: the
function always returns (the only throw path is a service exception,
which the model's oracle — a total function — does not produce). -/
def saveSlides (t : Table) (presentationId : String) (slides : List Slide)
    (now : Nat) (oracle : List WriteReq → List WriteReq) :
    Table × List BatchAction :=
  saveSlidesLoop oracle t (mkWriteRequests presentationId slides now)

/-! ### updatePresentationStatus -/

/-- JavaScript truthiness of the optional errorMessage parameter:
`if (errorMessage)` — undefined and "" are falsy. -/
def jsTruthyString : Option String → Bool
  | none => false
  | some s => s != ""

/-- The UpdateCommand semantics of updatePresentationStatus on an
existing metadata item: SET status and updatedAt unconditionally, and
errorMessage only when the parameter is truthy; all other attributes are
untouched. -/
def applyStatusUpdate (mi : MetaItem) (status : PresentationStatus)
    (errorMessage : Option String) (now : Nat) : MetaItem :=
  let m1 := { mi.meta with status := status, updatedAt := now }
  let m2 :=
    if jsTruthyString errorMessage then { m1 with errorMessage := errorMessage }
    else m1
  { mi with meta := m2 }

/-- updatePresentationStatus (presentationRepo.ts lines 281–317) as a
table operation. DynamoDB applies the update expression to the item at
the metadata key; every caller in the repository updates records it has
created, so the model applies the update to the existing item. -/
def updatePresentationStatus (t : Table) (presentationId : String)
    (status : PresentationStatus) (errorMessage : Option String) (now : Nat) :
    Table :=
  t.map (fun e =>
    if e.1 = metadataKey presentationId then
      (e.1,
        match e.2 with
        | ItemVal.metaVal mi => ItemVal.metaVal (applyStatusUpdate mi status errorMessage now)
        | v => v)
    else e)

/-! ### The SQS generation worker (handlers/sqs/generatePresentation.ts)

The worker's external collaborators (the OpenAI generation call, the
slide/status persistence calls, the WebSocket post) are network calls
that may throw. A thrown JavaScript value is either an Error (whose
.message is extracted) or some other value (message "Unknown error"). The
worker is modelled as a function of the outcomes of those collaborator
calls, returning the trace of calls it performed together with its own
result (ok, or the exception it re-raised). -/

/-- A thrown JavaScript value, as classified on line 63 of the handler:
`error instanceof Error ? error.message : "Unknown error"`. -/
inductive JSException
  | errorObj (message : String)
  | otherValue
deriving DecidableEq, Repr

/-- The error message recorded for a thrown value (handler line 63). -/
def exceptionMessage : JSException → String
  | JSException.errorObj m => m
  | JSException.otherValue => "Unknown error"

/-- GeneratePresentationMessage from src/types (the parsed SQS body). -/
structure GenMessage where
  presentationId : String
  userId : String
  title : String
  description : String
  connectionId : Option String
deriving DecidableEq, Repr

/-- WebSocketMessage from src/types (the notification payload fields the
worker populates). -/
structure WebSocketMessage where
  msgType : String
  presentationId : Option String
  error : Option String
deriving DecidableEq, Repr

/-- An observable call made by the worker while processing one message. -/
inductive WorkerAction
  | genCall (title : String) (description : String)
  | saveSlidesCall (presentationId : String) (slides : List Slide)
  | updateStatusCall (presentationId : String) (status : PresentationStatus)
      (errorMessage : Option String)
  | postToConnection (endpoint : String) (connectionId : String)
      (message : WebSocketMessage)
deriving DecidableEq, Repr

/-- Outcomes of the worker's fallible collaborator calls during one run:
the generation call, the saveSlides persistence, the status update to
"completed", and the WebSocket PostToConnection send. (The status update
to "failed" inside the catch block is taken to succeed: the claimed
behavior concerns exceptions raised while generating or persisting
content.) -/
structure RunOutcomes where
  gen : Except JSException Presentation
  save : Except JSException Unit
  updCompleted : Except JSException Unit
  notifySend : Except JSException Unit

/-- notifyWebSocket (handler lines 85–108): skip when no endpoint is
configured; otherwise post to the connection, catching and discarding any
send error. The returned value is the list of performed send attempts;
the Except layer shows that no branch ever re-raises. -/
def notifyWebSocket (endpoint : String) (connectionId : String)
    (message : WebSocketMessage) (sendOutcome : Except JSException Unit) :
    Except JSException (List WorkerAction) :=
  if endpoint = "" then Except.ok []
  else
    match sendOutcome with
    | Except.ok _ => Except.ok [WorkerAction.postToConnection endpoint connectionId message]
    | Except.error _e =>
      Except.ok [WorkerAction.postToConnection endpoint connectionId message]

/-- The catch block of processMessage (handler lines 62–79): record the
failed status with the thrown value's message, best-effort notify when a
connectionId was supplied, then re-throw the caught value. -/
def handleFailure (msg : GenMessage) (oc : RunOutcomes) (endpoint : String)
    (acts : List WorkerAction) (e : JSException) :
    List WorkerAction × Except JSException Unit :=
  let errMsg := exceptionMessage e
  let acts1 := acts ++
    [WorkerAction.updateStatusCall msg.presentationId PresentationStatus.failed (some errMsg)]
  match msg.connectionId with
  | none => (acts1, Except.error e)
  | some cid =>
    match notifyWebSocket endpoint cid
        { msgType := "presentation-failed"
          presentationId := some msg.presentationId
          error := some errMsg } oc.notifySend with
    | Except.ok notifyActs => (acts1 ++ notifyActs, Except.error e)
    | Except.error e2 => (acts1, Except.error e2)

/-- processMessage (handler lines 34–80): generate, persist slides,
update status to completed, best-effort notify; any exception from the
try block goes through handleFailure. Returns the performed call trace
and the function's result. -/
def processMessage (msg : GenMessage) (oc : RunOutcomes) (endpoint : String) :
    List WorkerAction × Except JSException Unit :=
  let acts0 := [WorkerAction.genCall msg.title msg.description]
  match oc.gen with
  | Except.error e => handleFailure msg oc endpoint acts0 e
  | Except.ok pres =>
    let acts1 := acts0 ++ [WorkerAction.saveSlidesCall msg.presentationId pres.slides]
    match oc.save with
    | Except.error e => handleFailure msg oc endpoint acts1 e
    | Except.ok _ =>
      match oc.updCompleted with
      | Except.error e => handleFailure msg oc endpoint acts1 e
      | Except.ok _ =>
        let acts2 := acts1 ++
          [WorkerAction.updateStatusCall msg.presentationId PresentationStatus.completed none]
        match msg.connectionId with
        | none => (acts2, Except.ok ())
        | some cid =>
          match notifyWebSocket endpoint cid
              { msgType := "presentation-completed"
                presentationId := some msg.presentationId
                error := none } oc.notifySend with
          | Except.ok notifyActs => (acts2 ++ notifyActs, Except.ok ())
          | Except.error e2 => (acts2, Except.error e2)

/-! ### Basic lemmas about the table model -/

theorem natDecimal_length_pos (n : Nat) : 0 < (natDecimal n).length := by
  by_cases h : n < 10
  · rw [natDecimal_of_lt n h]; simp
  · rw [natDecimal_of_ge n h]; simp

theorem getItem_nil (k : TableKey) : getItem [] k = none := rfl

theorem getItem_cons (e : TableKey × ItemVal) (t : Table) (k : TableKey) :
    getItem (e :: t) k = if e.1 = k then some e.2 else getItem t k := by
  by_cases he : e.1 = k
  · simp [getItem, List.find?_cons_of_pos, he]
  · simp [getItem, List.find?_cons_of_neg, he]

theorem getItem_putItem_self (t : Table) (k : TableKey) (v : ItemVal) :
    getItem (putItem t k v) k = some v := by
  induction t with
  | nil => simp [putItem, getItem_cons]
  | cons e t ih =>
    by_cases he : e.1 = k
    · simp [putItem, he, getItem_cons]
    · simp [putItem, he, getItem_cons, ih]

theorem getItem_putItem_ne (t : Table) (k k' : TableKey) (v : ItemVal)
    (hne : k' ≠ k) : getItem (putItem t k v) k' = getItem t k' := by
  have hne2 : ¬ k = k' := fun h => hne h.symm
  induction t with
  | nil => simp [putItem, getItem_cons, getItem_nil, hne2]
  | cons e t ih =>
    by_cases he : e.1 = k
    · subst he
      have h3 : ¬ e.1 = k' := fun h => hne h.symm
      rw [putItem, if_pos rfl, getItem_cons, getItem_cons, if_neg hne2, if_neg h3]
    · rw [putItem, if_neg he, getItem_cons, getItem_cons, ih]

/-- getItem on a keyed in-place rewrite of the table (the shape of
updatePresentationStatus). -/
theorem getItem_map_guard (t : Table) (K : TableKey) (f : ItemVal → ItemVal)
    (k : TableKey) :
    getItem (t.map (fun e => if e.1 = K then (e.1, f e.2) else e)) k =
      if k = K then (getItem t k).map f else getItem t k := by
  induction t with
  | nil => by_cases hk : k = K <;> simp [getItem_nil, hk]
  | cons e t ih =>
    rw [List.map_cons]
    by_cases he : e.1 = K
    · rw [if_pos he]
      by_cases hek : e.1 = k
      · have hkK : k = K := hek ▸ he
        rw [getItem_cons, getItem_cons, if_pos hek, if_pos hek, if_pos hkK]
        rfl
      · have hkK : ¬ k = K := fun h => hek (he.trans h.symm)
        rw [getItem_cons, getItem_cons, if_neg hek, if_neg hek, ih, if_neg hkK]
    · rw [if_neg he]
      by_cases hek : e.1 = k
      · have hkK : ¬ k = K := fun h => he (hek.trans h)
        rw [getItem_cons, getItem_cons, if_pos hek, if_pos hek, if_neg hkK]
      · rw [getItem_cons, getItem_cons, if_neg hek, if_neg hek, ih]

/-! ### Claim C2: key construction -/

/-- C2: for every presentation id, owner id and slide index 0 ≤ i ≤ 999,
the storage keys are exactly: pk = "PRESENTATION#" + id, metadata sort
key = "METADATA", slide sort key = "SLIDE#" + i in decimal left-padded
with zeros to exactly 3 digits, gsi1pk = "USER#" + ownerId and
gsi1sk = "PRESENTATION#" + id. -/
theorem keys_constructed_as_specified (id ownerId : String) (i : Nat)
    (hi : i ≤ 999) :
    createPK id = "PRESENTATION#" ++ id ∧
    createSK "METADATA" none = "METADATA" ∧
    createSK "SLIDE" (some i) = specSlideSortKey i ∧
    (createSK "SLIDE" (some i)).length = 9 ∧
    createGSI1PK ownerId = "USER#" ++ ownerId ∧
    createGSI1SK id = "PRESENTATION#" ++ id := by
  refine ⟨rfl, rfl, rfl, ?_, rfl, rfl⟩
  have hle : (natDecimal i).length ≤ 3 :=
    natDecimal_length_le 3 (by omega) i (by omega)
  have hpos := natDecimal_length_pos i
  show ("SLIDE#" ++ padStart (jsStringOfNat i) 3 '0').length = 9
  rw [String.length_append]
  have : (padStart (jsStringOfNat i) 3 '0').length =
      (List.replicate (3 - (natDecimal i).length) '0' ++ natDecimal i).length := rfl
  rw [this]
  simp only [List.length_append, List.length_replicate]
  have h6 : ("SLIDE#" : String).length = 6 := rfl
  omega

/-- Witness for C2 at id "p", owner "u", index 7. -/
theorem keys_constructed_as_specified_witness :
    (createSK "SLIDE" (some 7)).length = 9 ∧
    createGSI1PK "u" = "USER#" ++ "u" :=
  ⟨(keys_constructed_as_specified "p" "u" 7 (by omega)).2.2.2.1,
   (keys_constructed_as_specified "p" "u" 7 (by omega)).2.2.2.2.1⟩

/-! ### Claim C8: saveSlides with an empty array writes nothing -/

theorem saveSlidesLoop_nil (oracle : List WriteReq → List WriteReq) (t : Table) :
    saveSlidesLoop oracle t [] = (t, []) := by
  rw [saveSlidesLoop]
  simp

theorem saveSlides_nil_helper (t : Table) (id : String) (now : Nat)
    (oracle : List WriteReq → List WriteReq) :
    saveSlides t id [] now oracle = (t, []) := by
  unfold saveSlides
  have : mkWriteRequests id [] now = [] := rfl
  rw [this, saveSlidesLoop_nil]

/-- C8: saveSlides(id, []) builds zero write requests, so the batch loop
performs no iteration: no storage command is issued (empty action trace)
and the table — metadata and all previously stored slide records — is
returned unchanged, for every service behavior. -/
theorem saveSlides_empty_is_noop (t : Table) (id : String) (now : Nat)
    (oracle : List WriteReq → List WriteReq) :
    saveSlides t id [] now oracle = (t, []) :=
  saveSlides_nil_helper t id now oracle

/-! ### Concrete fixtures used by witnesses and counterexamples -/

/-- A sample theme. -/
def themeEx : PresentationTheme :=
  { logo := LogoType.qodea, logoText := none, logoImage := none
    colors := ColorTheme.qodea, videoBackground := none }

/-- A sample stored metadata entity for presentation "p" owned by "u",
with a chosen createdAt. -/
def metaEx (createdAt : Nat) : PresentationMetadata :=
  { id := "p", title := "T", description := none, userId := "u"
    status := PresentationStatus.processing, createdAt := createdAt
    updatedAt := 0, theme := themeEx, errorMessage := none }

/-- The sample metadata entity as stored (with its GSI1 attributes). -/
def miEx (createdAt : Nat) : MetaItem :=
  { gsi1pk := createGSI1PK "u", gsi1sk := createGSI1SK "p", meta := metaEx createdAt }

/-- A table holding only the sample metadata record. -/
def tableEx (createdAt : Nat) : Table :=
  [(metadataKey "p", ItemVal.metaVal (miEx createdAt))]

/-- The savePresentationMetadata argument matching the sample record. -/
def mdInEx : MetadataInput :=
  { id := "p", title := "T", description := none, userId := "u"
    status := PresentationStatus.processing, theme := themeEx, errorMessage := none }

/-- A sample slide payload. -/
def slideEx : Slide := { payload := "s0" }

/-- A table holding the sample metadata record and one slide record at
index 0 (sort key "SLIDE#000"). -/
def tableWithSlide : Table :=
  [(metadataKey "p", ItemVal.metaVal (miEx 1)),
   ((createPK "p", "SLIDE#000"),
     ItemVal.slideVal { slideIndex := 0, slide := slideEx, updatedAt := 0 })]

/-! ### Claim C7 / C10: updatePresentationStatus -/

theorem getItem_updateStatus (t : Table) (id : String) (st : PresentationStatus)
    (err : Option String) (now : Nat) (k : TableKey) :
    getItem (updatePresentationStatus t id st err now) k =
      if k = metadataKey id then
        (getItem t k).map (fun v =>
          match v with
          | ItemVal.metaVal mi => ItemVal.metaVal (applyStatusUpdate mi st err now)
          | v => v)
      else getItem t k :=
  getItem_map_guard t (metadataKey id)
    (fun v =>
      match v with
      | ItemVal.metaVal mi => ItemVal.metaVal (applyStatusUpdate mi st err now)
      | v => v) k

theorem applyStatusUpdate_fields (mi : MetaItem) (st : PresentationStatus)
    (err : Option String) (now : Nat) :
    (applyStatusUpdate mi st err now).meta.status = st ∧
    (applyStatusUpdate mi st err now).meta.updatedAt = now ∧
    (applyStatusUpdate mi st err now).meta.errorMessage =
      (if jsTruthyString err then err else mi.meta.errorMessage) ∧
    (applyStatusUpdate mi st err now).meta.title = mi.meta.title ∧
    (applyStatusUpdate mi st err now).meta.description = mi.meta.description ∧
    (applyStatusUpdate mi st err now).meta.theme = mi.meta.theme ∧
    (applyStatusUpdate mi st err now).meta.userId = mi.meta.userId ∧
    (applyStatusUpdate mi st err now).meta.createdAt = mi.meta.createdAt ∧
    (applyStatusUpdate mi st err now).meta.id = mi.meta.id := by
  by_cases h : jsTruthyString err <;> simp [applyStatusUpdate, h]

/-- C7: updatePresentationStatus sets status and updatedAt
unconditionally; the errorMessage attribute is written only when an
errorMessage argument is provided (in particular, when none is provided
— as in the transition to "completed" — a previously stored errorMessage
is kept, and the update can never clear a stored errorMessage); every
other metadata field and every other table record is unchanged. -/
theorem updateStatus_partial_update (t : Table) (id : String)
    (st : PresentationStatus) (errArg : Option String) (now : Nat) (mi : MetaItem)
    (hget : getItem t (metadataKey id) = some (ItemVal.metaVal mi)) :
    ∃ mi2,
      getItem (updatePresentationStatus t id st errArg now) (metadataKey id) =
        some (ItemVal.metaVal mi2) ∧
      mi2.meta.status = st ∧
      mi2.meta.updatedAt = now ∧
      (errArg = none → mi2.meta.errorMessage = mi.meta.errorMessage) ∧
      (∀ s, errArg = some s → s ≠ "" → mi2.meta.errorMessage = some s) ∧
      (mi.meta.errorMessage ≠ none → mi2.meta.errorMessage ≠ none) ∧
      mi2.meta.title = mi.meta.title ∧
      mi2.meta.description = mi.meta.description ∧
      mi2.meta.theme = mi.meta.theme ∧
      mi2.meta.userId = mi.meta.userId ∧
      mi2.meta.createdAt = mi.meta.createdAt ∧
      mi2.meta.id = mi.meta.id ∧
      (∀ k, k ≠ metadataKey id →
        getItem (updatePresentationStatus t id st errArg now) k = getItem t k) := by
  refine ⟨applyStatusUpdate mi st errArg now, ?_, ?_⟩
  · rw [getItem_updateStatus, if_pos rfl, hget]
    rfl
  obtain ⟨h1, h2, h3, h4, h5, h6, h7, h8, h9⟩ := applyStatusUpdate_fields mi st errArg now
  refine ⟨h1, h2, ?_, ?_, ?_, h4, h5, h6, h7, h8, h9, ?_⟩
  · intro hnone
    subst hnone
    simpa [jsTruthyString] using h3
  · intro s hs hsne
    subst hs
    have ht : jsTruthyString (some s) = true := by
      simp [jsTruthyString, hsne]
    rw [h3, if_pos ht]
  · intro hstored
    rw [h3]
    by_cases h : jsTruthyString errArg
    · rw [if_pos h]
      cases errArg with
      | none => simp [jsTruthyString] at h
      | some s => simp
    · rw [if_neg h]
      exact hstored
  · intro k hk
    rw [getItem_updateStatus, if_neg hk]

/-- Witness for C7: a failed-status update with message "boom" on the
sample table. -/
theorem updateStatus_partial_update_witness :
    ∃ mi2,
      getItem (updatePresentationStatus (tableEx 1) "p" PresentationStatus.failed
          (some "boom") 7) (metadataKey "p") = some (ItemVal.metaVal mi2) ∧
      mi2.meta.status = PresentationStatus.failed ∧
      mi2.meta.updatedAt = 7 ∧
      mi2.meta.errorMessage = some "boom" ∧
      mi2.meta.createdAt = 1 := by
  obtain ⟨mi2, hg, h1, h2, _, hw, _, _, _, _, _, hc, _, _⟩ :=
    updateStatus_partial_update (tableEx 1) "p" PresentationStatus.failed
      (some "boom") 7 (miEx 1) (by decide)
  exact ⟨mi2, hg, h1, h2, hw "boom" rfl (by decide), hc⟩

/-- C10: a provided empty-string errorMessage is falsy, so the call
behaves exactly like a call with no errorMessage argument: status and
updatedAt are set, the stored errorMessage is left unchanged. -/
theorem updateStatus_empty_message_ignored (t : Table) (id : String)
    (st : PresentationStatus) (now : Nat) (mi : MetaItem)
    (hget : getItem t (metadataKey id) = some (ItemVal.metaVal mi)) :
    updatePresentationStatus t id st (some "") now =
      updatePresentationStatus t id st none now ∧
    ∃ mi2,
      getItem (updatePresentationStatus t id st (some "") now) (metadataKey id) =
        some (ItemVal.metaVal mi2) ∧
      mi2.meta.errorMessage = mi.meta.errorMessage ∧
      mi2.meta.status = st ∧
      mi2.meta.updatedAt = now := by
  constructor
  · unfold updatePresentationStatus
    have : applyStatusUpdate = fun mi st (err : Option String) now =>
        applyStatusUpdate mi st err now := rfl
    simp only [applyStatusUpdate, jsTruthyString]
    rfl
  · refine ⟨applyStatusUpdate mi st (some "") now, ?_, ?_, ?_, ?_⟩
    · rw [getItem_updateStatus, if_pos rfl, hget]
      rfl
    · simp [applyStatusUpdate, jsTruthyString]
    · simp only [applyStatusUpdate]
      split <;> rfl
    · simp only [applyStatusUpdate]
      split <;> rfl

/-- Witness for C10: updating to failed with an empty message on a table
whose record holds a stale errorMessage keeps the stale message. -/
theorem updateStatus_empty_message_ignored_witness :
    ∃ mi2,
      getItem (updatePresentationStatus
          [(metadataKey "p", ItemVal.metaVal
            { gsi1pk := createGSI1PK "u", gsi1sk := createGSI1SK "p"
              meta := { metaEx 1 with errorMessage := some "stale" } })]
          "p" PresentationStatus.failed (some "") 9) (metadataKey "p") =
        some (ItemVal.metaVal mi2) ∧
      mi2.meta.errorMessage = some "stale" ∧
      mi2.meta.status = PresentationStatus.failed ∧
      mi2.meta.updatedAt = 9 := by
  obtain ⟨-, mi2, hg, he, hs, hu⟩ :=
    updateStatus_empty_message_ignored
      [(metadataKey "p", ItemVal.metaVal
        { gsi1pk := createGSI1PK "u", gsi1sk := createGSI1SK "p"
          meta := { metaEx 1 with errorMessage := some "stale" } })]
      "p" PresentationStatus.failed 9
      { gsi1pk := createGSI1PK "u", gsi1sk := createGSI1SK "p"
        meta := { metaEx 1 with errorMessage := some "stale" } } (by decide)
  exact ⟨mi2, hg, by rw [he], hs, hu⟩

/-! ### Claims C9 / C4: savePresentationMetadata and createdAt -/

/-- What savePresentationMetadata stores, as a function of the existing
record: the put item's metadata fields. -/
theorem savePresentationMetadata_spec (t : Table) (md : MetadataInput) (now : Nat) :
    getPresentationMetadata (savePresentationMetadata t md now) md.id =
      some
        { id := md.id
          title := md.title
          description := md.description
          userId := md.userId
          status := md.status
          createdAt :=
            match getPresentationMetadata t md.id with
            | some e => if e.createdAt = 0 then now else e.createdAt
            | none => now
          updatedAt := now
          theme := md.theme
          errorMessage := md.errorMessage } := by
  unfold savePresentationMetadata
  show getPresentationMetadata (putItem _ _ _) _ = _
  unfold getPresentationMetadata
  rw [getItem_putItem_self]

/-- C9: the preserved createdAt is `existing?.createdAt || now` — a
stored createdAt of 0 is falsy and is replaced by the current time on
re-save; a non-zero stored createdAt is preserved. -/
theorem savePresentationMetadata_createdAt_truthiness (t : Table)
    (md : MetadataInput) (now : Nat) (e : PresentationMetadata)
    (hex : getPresentationMetadata t md.id = some e) :
    (getPresentationMetadata (savePresentationMetadata t md now) md.id).map
        PresentationMetadata.createdAt =
      some (if e.createdAt = 0 then now else e.createdAt) := by
  rw [savePresentationMetadata_spec, hex]
  rfl

/-- Witness for C9: re-saving the sample record whose stored createdAt is
0 at time 5 replaces createdAt with 5; with stored createdAt 3 it stays 3. -/
theorem savePresentationMetadata_createdAt_truthiness_witness :
    (getPresentationMetadata (savePresentationMetadata (tableEx 0) mdInEx 5) "p").map
        PresentationMetadata.createdAt = some 5 ∧
    (getPresentationMetadata (savePresentationMetadata (tableEx 3) mdInEx 5) "p").map
        PresentationMetadata.createdAt = some 3 := by
  constructor
  · have h := savePresentationMetadata_createdAt_truthiness (tableEx 0) mdInEx 5
      (metaEx 0) (by decide)
    simpa using h
  · have h := savePresentationMetadata_createdAt_truthiness (tableEx 3) mdInEx 5
      (metaEx 3) (by decide)
    simpa using h

/-- Counterexample to C4 as stated: with the first call at time 0
(stamping createdAt = 0) and the second at time 5, the second call does
not preserve the first call's createdAt — 0 is falsy in
`existing?.createdAt || now`. -/
theorem savePresentationMetadata_c4_counterexample :
    (getPresentationMetadata (savePresentationMetadata [] mdInEx 0) "p").map
        PresentationMetadata.createdAt = some 0 ∧
    (getPresentationMetadata
        (savePresentationMetadata (savePresentationMetadata [] mdInEx 0) mdInEx 5)
        "p").map PresentationMetadata.createdAt = some 5 ∧
    (5 : Nat) ≠ 0 := by
  refine ⟨by decide, by decide, by decide⟩

/-- C4 (amended): when the existing record's createdAt is non-zero, a
re-save preserves it and stamps updatedAt with the current time; in
particular two calls with the same id, the first at a non-zero time,
leave createdAt at the first call's time and updatedAt at the second's. -/
theorem savePresentationMetadata_preserves_nonzero_createdAt :
    (∀ (t : Table) (md : MetadataInput) (now : Nat) (e : PresentationMetadata),
      getPresentationMetadata t md.id = some e → e.createdAt ≠ 0 →
      (getPresentationMetadata (savePresentationMetadata t md now) md.id).map
          (fun m => (m.createdAt, m.updatedAt)) = some (e.createdAt, now)) ∧
    (∀ (md : MetadataInput) (n1 n2 : Nat), n1 ≠ 0 →
      (getPresentationMetadata
          (savePresentationMetadata (savePresentationMetadata [] md n1) md n2)
          md.id).map (fun m => (m.createdAt, m.updatedAt)) = some (n1, n2)) := by
  constructor
  · intro t md now e hex hnz
    rw [savePresentationMetadata_spec, hex]
    simp [hnz]
  · intro md n1 n2 hn1
    have h1 : getPresentationMetadata (savePresentationMetadata [] md n1) md.id =
        some
          { id := md.id, title := md.title, description := md.description
            userId := md.userId, status := md.status, createdAt := n1
            updatedAt := n1, theme := md.theme, errorMessage := md.errorMessage } := by
      have := savePresentationMetadata_spec [] md n1
      simpa [getPresentationMetadata, getItem_nil] using this
    rw [savePresentationMetadata_spec, h1]
    simp [hn1]

/-- Witness for C4 (amended): first call at time 2, second at time 5. -/
theorem savePresentationMetadata_preserves_nonzero_createdAt_witness :
    (getPresentationMetadata
        (savePresentationMetadata (savePresentationMetadata [] mdInEx 2) mdInEx 5)
        "p").map (fun m => (m.createdAt, m.updatedAt)) = some (2, 5) :=
  savePresentationMetadata_preserves_nonzero_createdAt.2 mdInEx 2 5 (by decide)

/-! ### Claim C6: getPresentation -/

instance : IsTotal SlideItem (fun a b => a.slideIndex ≤ b.slideIndex) :=
  ⟨fun a b => Nat.le_total a.slideIndex b.slideIndex⟩

instance : IsTrans SlideItem (fun a b => a.slideIndex ≤ b.slideIndex) :=
  ⟨fun _ _ _ h1 h2 => Nat.le_trans h1 h2⟩

/-- C6: getPresentation returns none (not an error) when no metadata
record exists; when one exists it returns the stored slide items sorted
ascending by their numeric slideIndex attribute, projected to slide
payloads, and a presentation with no slide records yields the empty
slide list rather than an error. -/
theorem getPresentation_contract (t : Table) (id : String) :
    (getItem t (metadataKey id) = none → getPresentation t id = none) ∧
    (∀ mi, getItem t (metadataKey id) = some (ItemVal.metaVal mi) →
      ∃ p, getPresentation t id = some p ∧
        p.id = mi.meta.id ∧ p.title = mi.meta.title ∧
        p.description = mi.meta.description ∧ p.theme = mi.meta.theme ∧
        ∃ sortedItems : List SlideItem,
          sortedItems.Perm (querySlides t id) ∧
          List.Pairwise (fun a b => a.slideIndex ≤ b.slideIndex) sortedItems ∧
          p.slides = sortedItems.map SlideItem.slide ∧
          (querySlides t id = [] → p.slides = [])) := by
  constructor
  · intro h
    unfold getPresentation
    rw [h]
  · intro mi h
    refine ⟨_, by unfold getPresentation; rw [h], rfl, rfl, rfl, rfl,
      sortBySlideIndex (querySlides t id), ?_, ?_, rfl, ?_⟩
    · exact List.perm_insertionSort _ _
    · exact List.sorted_insertionSort _ _
    · intro hq
      show (sortBySlideIndex (querySlides t id)).map SlideItem.slide = []
      rw [hq]
      rfl

/-- Witness for C6: an empty table yields none; the sample one-slide
table yields the sample presentation. -/
theorem getPresentation_contract_witness :
    getPresentation [] "q" = none ∧
    (∃ p, getPresentation tableWithSlide "p" = some p ∧ p.title = "T") := by
  refine ⟨(getPresentation_contract [] "q").1 rfl, ?_⟩
  obtain ⟨p, hp, -, htitle, -⟩ :=
    (getPresentation_contract tableWithSlide "p").2 (miEx 1) (by decide)
  exact ⟨p, hp, by rw [htitle]; rfl⟩

/-! ### Claim C1: saveSlides(id, []) then getPresentation(id) -/

/-- Counterexample to C1 as stated: on a table already holding a slide
record for "p", saveSlides("p", []) followed by getPresentation("p")
returns that previously stored slide, not an empty slide list. -/
theorem saveSlides_empty_get_counterexample :
    (getPresentation (saveSlides tableWithSlide "p" [] 0 (fun _ => [])).1 "p").map
        Presentation.slides = some [slideEx] ∧
    some [slideEx] ≠ some ([] : List Slide) := by
  constructor
  · rw [saveSlides_nil_helper]
    decide
  · decide

/-- C1 (amended): saveSlides(id, []) issues no write, so a following
getPresentation(id) returns exactly what it returned before the call —
the metadata-backed presentation with the previously stored slides; its
slide list is empty if and only if no slide records were stored for the
id before the call. -/
theorem saveSlides_empty_get_unchanged (t : Table) (id : String) (now : Nat)
    (oracle : List WriteReq → List WriteReq) :
    getPresentation (saveSlides t id [] now oracle).1 id = getPresentation t id ∧
    (∀ mi, getItem t (metadataKey id) = some (ItemVal.metaVal mi) →
      ∃ p, getPresentation (saveSlides t id [] now oracle).1 id = some p ∧
        (p.slides = [] ↔ querySlides t id = [])) := by
  have hs := saveSlides_nil_helper t id now oracle
  constructor
  · rw [hs]
  · intro mi h
    rw [hs]
    refine ⟨_, by unfold getPresentation; rw [h], ?_⟩
    show (sortBySlideIndex (querySlides t id)).map SlideItem.slide = [] ↔
      querySlides t id = []
    constructor
    · intro hmap
      have hnil : sortBySlideIndex (querySlides t id) = [] :=
        List.map_eq_nil_iff.mp hmap
      have hperm : (querySlides t id).Perm [] := by
        have := (List.perm_insertionSort
          (fun a b : SlideItem => a.slideIndex ≤ b.slideIndex) (querySlides t id)).symm
        rw [sortBySlideIndex] at hnil
        rw [hnil] at this
        exact this
      exact hperm.eq_nil
    · intro hq
      rw [hq]
      rfl

/-- Witness for C1 (amended): on the sample one-slide table the slide
list stays non-empty; on a metadata-only table it is empty. -/
theorem saveSlides_empty_get_unchanged_witness :
    (∃ p, getPresentation (saveSlides tableWithSlide "p" [] 0 (fun _ => [])).1 "p" =
        some p ∧ (p.slides = [] ↔ querySlides tableWithSlide "p" = [])) ∧
    (∃ p, getPresentation (saveSlides (tableEx 1) "p" [] 0 (fun _ => [])).1 "p" =
        some p ∧ p.slides = []) := by
  constructor
  · exact (saveSlides_empty_get_unchanged tableWithSlide "p" 0 (fun _ => [])).2
      (miEx 1) (by decide)
  · obtain ⟨p, hp, hiff⟩ := (saveSlides_empty_get_unchanged (tableEx 1) "p" 0
      (fun _ => [])).2 (miEx 1) (by decide)
    exact ⟨p, hp, hiff.mpr (by decide)⟩

/-! ### Claim C3: saveSlides batching, retry and silent acceptance -/

/-- The consecutive slices of at most 25 requests taken by the loop
`for (i = 0; i < len; i += 25) slice(i, i + 25)`. -/
def chunks25 (l : List WriteReq) : List (List WriteReq) :=
  if h : l = [] then [] else l.take 25 :: chunks25 (l.drop 25)
termination_by l.length
decreasing_by
  simp only [List.length_drop]
  have : l.length ≠ 0 := fun hc => h (List.eq_nil_of_length_eq_zero hc)
  omega

theorem chunks25_nil : chunks25 [] = [] := by
  rw [chunks25]
  simp

theorem chunks25_cons (l : List WriteReq) (h : ¬ l = []) :
    chunks25 l = l.take 25 :: chunks25 (l.drop 25) := by
  rw [chunks25]
  simp [h]

theorem chunks25_flatten_aux :
    ∀ (n : Nat) (l : List WriteReq), l.length ≤ n → (chunks25 l).flatten = l := by
  intro n
  induction n with
  | zero =>
    intro l hl
    have : l = [] := List.eq_nil_of_length_eq_zero (by omega)
    subst this
    simp [chunks25_nil]
  | succ n ih =>
    intro l hl
    by_cases h : l = []
    · subst h
      simp [chunks25_nil]
    · rw [chunks25_cons l h, List.flatten_cons, ih (l.drop 25) ?_,
        List.take_append_drop]
      have h0 : 0 < l.length := List.length_pos.mpr h
      simp only [List.length_drop]
      omega

theorem chunks25_length_le :
    ∀ (n : Nat) (l : List WriteReq), l.length ≤ n →
      ∀ c ∈ chunks25 l, c.length ≤ 25 := by
  intro n
  induction n with
  | zero =>
    intro l hl c hc
    have : l = [] := List.eq_nil_of_length_eq_zero (by omega)
    subst this
    rw [chunks25_nil] at hc
    simp at hc
  | succ n ih =>
    intro l hl c hc
    by_cases h : l = []
    · subst h
      rw [chunks25_nil] at hc
      simp at hc
    · rw [chunks25_cons l h] at hc
      rcases List.mem_cons.mp hc with hc | hc
      · subst hc
        rw [List.length_take]
        exact Nat.min_le_left 25 l.length
      · refine ih (l.drop 25) ?_ c hc
        have h0 : 0 < l.length := List.length_pos.mpr h
        simp only [List.length_drop]
        omega

/-- The actions one chunk produces: its BatchWriteCommand, followed — only
when the service reports unprocessed items — by the 1000 ms sleep and the
one retry BatchWriteCommand carrying exactly the unprocessed items. -/
def batchActions (oracle : List WriteReq → List WriteReq) (c : List WriteReq) :
    List BatchAction :=
  if oracle c = [] then [BatchAction.batchWrite c]
  else [BatchAction.batchWrite c, BatchAction.sleep 1000,
    BatchAction.batchWrite (oracle c)]

theorem saveSlidesLoop_trace (oracle : List WriteReq → List WriteReq) :
    ∀ (n : Nat) (reqs : List WriteReq) (t : Table), reqs.length ≤ n →
      (saveSlidesLoop oracle t reqs).2 =
        ((chunks25 reqs).map (batchActions oracle)).flatten := by
  intro n
  induction n with
  | zero =>
    intro reqs t hl
    have : reqs = [] := List.eq_nil_of_length_eq_zero (by omega)
    subst this
    rw [saveSlidesLoop_nil, chunks25_nil]
    rfl
  | succ n ih =>
    intro reqs t hl
    by_cases h : reqs = []
    · subst h
      rw [saveSlidesLoop_nil, chunks25_nil]
      rfl
    · have hdrop : (reqs.drop 25).length ≤ n := by
        have h0 : 0 < reqs.length := List.length_pos.mpr h
        simp only [List.length_drop]
        omega
      rw [saveSlidesLoop]
      rw [chunks25_cons reqs h, List.map_cons, List.flatten_cons]
      by_cases horacle : oracle (reqs.take 25) = []
      · simp only [h, dite_false, horacle, if_true, batchActions, if_pos horacle]
        rw [ih (reqs.drop 25) _ hdrop]
        rfl
      · simp only [h, dite_false, horacle, if_false, batchActions, if_neg horacle]
        rw [ih (reqs.drop 25) _ hdrop]
        rfl

/-- C3: saveSlides builds one write request per array position with
slideIndex equal to the position; the requests are issued in position
order partitioned into consecutive batches of at most 25; a batch whose
response reports unprocessed items is followed by exactly one fixed
1000 ms sleep and one retry carrying those items; nothing follows the
retry for a chunk — in particular unprocessed items left by the retry
produce no further action or error, and the function returns its result
for every service behavior. -/
theorem saveSlides_batching (id : String) (slides : List Slide) (now : Nat)
    (t : Table) (oracle : List WriteReq → List WriteReq) :
    (mkWriteRequests id slides now).length = slides.length ∧
    (∀ (i : Nat) (s : Slide), slides[i]? = some s →
      (mkWriteRequests id slides now)[i]? =
        some { pk := createPK id, sk := createSK "SLIDE" (some i)
               slideIndex := i, slide := s, updatedAt := now }) ∧
    (chunks25 (mkWriteRequests id slides now)).flatten =
      mkWriteRequests id slides now ∧
    (∀ c ∈ chunks25 (mkWriteRequests id slides now), c.length ≤ 25) ∧
    (saveSlides t id slides now oracle).2 =
      ((chunks25 (mkWriteRequests id slides now)).map (batchActions oracle)).flatten := by
  refine ⟨?_, ?_, ?_, ?_, ?_⟩
  · rw [mkWriteRequests, List.length_map, List.enum_length]
  · intro i s hs
    rw [mkWriteRequests, List.getElem?_map, List.getElem?_enum, hs]
    rfl
  · exact chunks25_flatten_aux (mkWriteRequests id slides now).length _ le_rfl
  · exact chunks25_length_le (mkWriteRequests id slides now).length _ le_rfl
  · exact saveSlidesLoop_trace oracle (mkWriteRequests id slides now).length _ t le_rfl

/-- Witness for C3 at one slide: the single write request carries
slideIndex 0 and the slide. -/
theorem saveSlides_batching_witness :
    (mkWriteRequests "p" [slideEx] 5).length = 1 ∧
    (mkWriteRequests "p" [slideEx] 5)[0]? =
      some { pk := createPK "p", sk := createSK "SLIDE" (some 0)
             slideIndex := 0, slide := slideEx, updatedAt := 5 } :=
  ⟨(saveSlides_batching "p" [slideEx] 5 [] (fun _ => [])).1,
   (saveSlides_batching "p" [slideEx] 5 [] (fun _ => [])).2.1 0 slideEx rfl⟩

/-! ### Claim C5: worker failure handling and best-effort notification -/

/-- notifyWebSocket always returns ok: when no endpoint is configured it
skips, otherwise it attempts the post and catches any send error. -/
theorem notifyWebSocket_acts (endpoint cid : String) (m : WebSocketMessage)
    (so : Except JSException Unit) :
    notifyWebSocket endpoint cid m so =
      Except.ok (if endpoint = "" then []
        else [WorkerAction.postToConnection endpoint cid m]) := by
  unfold notifyWebSocket
  by_cases h : endpoint = "" <;> cases so <;> simp [h]

theorem handleFailure_spec (msg : GenMessage) (oc : RunOutcomes)
    (endpoint : String) (acts : List WorkerAction) (e : JSException) :
    (handleFailure msg oc endpoint acts e).2 = Except.error e ∧
    WorkerAction.updateStatusCall msg.presentationId PresentationStatus.failed
        (some (exceptionMessage e)) ∈ (handleFailure msg oc endpoint acts e).1 ∧
    (∀ cid, msg.connectionId = some cid → endpoint ≠ "" →
      WorkerAction.postToConnection endpoint cid
          { msgType := "presentation-failed"
            presentationId := some msg.presentationId
            error := some (exceptionMessage e) } ∈
        (handleFailure msg oc endpoint acts e).1) := by
  unfold handleFailure
  cases hcid : msg.connectionId with
  | none =>
    refine ⟨rfl, by simp, ?_⟩
    intro cid hc
    cases hc
  | some cid =>
    refine ⟨?_, ?_, ?_⟩
    · simp [notifyWebSocket_acts]
    · simp [notifyWebSocket_acts]
    · intro cid' hc hne
      have h2 : cid = cid' := Option.some.inj hc
      subst h2
      simp [notifyWebSocket_acts, hne]

/-- C5: any exception raised while generating or persisting content (the
generation call, the slide save, or the completed-status write) makes the
worker record status "failed" with the exception's message, attempt the
best-effort notification when a connection id was supplied, and re-raise
the original exception — for every notification outcome; when all three
steps succeed the job succeeds for every notification outcome; and the
notification helper itself never raises. -/
theorem worker_failure_handling (msg : GenMessage) (oc : RunOutcomes)
    (endpoint : String) :
    (∀ e : JSException,
      (oc.gen = Except.error e ∨
       (∃ p, oc.gen = Except.ok p ∧ oc.save = Except.error e) ∨
       (∃ p, oc.gen = Except.ok p ∧ oc.save = Except.ok () ∧
         oc.updCompleted = Except.error e)) →
      (processMessage msg oc endpoint).2 = Except.error e ∧
      WorkerAction.updateStatusCall msg.presentationId PresentationStatus.failed
          (some (exceptionMessage e)) ∈ (processMessage msg oc endpoint).1 ∧
      (∀ cid, msg.connectionId = some cid → endpoint ≠ "" →
        WorkerAction.postToConnection endpoint cid
            { msgType := "presentation-failed"
              presentationId := some msg.presentationId
              error := some (exceptionMessage e) } ∈
          (processMessage msg oc endpoint).1)) ∧
    (∀ p, oc.gen = Except.ok p → oc.save = Except.ok () →
      oc.updCompleted = Except.ok () →
      (processMessage msg oc endpoint).2 = Except.ok ()) ∧
    (∀ (so : Except JSException Unit) (cid : String) (m : WebSocketMessage),
      ∃ acts, notifyWebSocket endpoint cid m so = Except.ok acts) := by
  refine ⟨?_, ?_, fun so cid m => ⟨_, notifyWebSocket_acts endpoint cid m so⟩⟩
  · intro e he
    rcases he with hgen | ⟨p, hgen, hsave⟩ | ⟨p, hgen, hsave, hupd⟩
    · unfold processMessage
      rw [hgen]
      exact handleFailure_spec msg oc endpoint _ e
    · unfold processMessage
      rw [hgen, hsave]
      exact handleFailure_spec msg oc endpoint _ e
    · unfold processMessage
      rw [hgen, hsave, hupd]
      exact handleFailure_spec msg oc endpoint _ e
  · intro p hgen hsave hupd
    unfold processMessage
    rw [hgen, hsave, hupd]
    cases hcid : msg.connectionId with
    | none => rfl
    | some cid =>
      simp [notifyWebSocket_acts]

/-- Witness for C5: a run whose generation call throws Error("boom") and
whose notification send also fails still records the failed status with
message "boom" and re-raises the generation error. -/
theorem worker_failure_handling_witness :
    (processMessage
        { presentationId := "p", userId := "u", title := "T", description := "d"
          connectionId := some "c1" }
        { gen := Except.error (JSException.errorObj "boom")
          save := Except.ok (), updCompleted := Except.ok ()
          notifySend := Except.error JSException.otherValue }
        "wss://x").2 = Except.error (JSException.errorObj "boom") ∧
    WorkerAction.updateStatusCall "p" PresentationStatus.failed (some "boom") ∈
      (processMessage
        { presentationId := "p", userId := "u", title := "T", description := "d"
          connectionId := some "c1" }
        { gen := Except.error (JSException.errorObj "boom")
          save := Except.ok (), updCompleted := Except.ok ()
          notifySend := Except.error JSException.otherValue }
        "wss://x").1 := by
  obtain ⟨h1, h2, -⟩ :=
    (worker_failure_handling
      { presentationId := "p", userId := "u", title := "T", description := "d"
        connectionId := some "c1" }
      { gen := Except.error (JSException.errorObj "boom")
        save := Except.ok (), updCompleted := Except.ok ()
        notifySend := Except.error JSException.otherValue }
      "wss://x").1 (JSException.errorObj "boom") (Or.inl rfl)
  exact ⟨h1, h2⟩

end PresentationApi
